import Mathlib

/-!
Verification of the docu-chat conversational retrieval-augmented query engine.

The development shallowly embeds the code of `app/services/rag_service.py`,
`app/services/agent_rag_service.py`, `app/routers/chat_common.py` /
`app/routers/chat.py` and the SQLAlchemy model declarations of
`app/models/chat.py` and `app/models/document.py`.  External collaborators
(the Pinecone similarity-search backend, the generation model, the agent
loop) are either quantified over as function parameters or, where their
behaviour decides a property, modelled from the specification's contract
for them; each such definition says so in its doc comment.
-/

namespace DocuChat

/-- Metadata stamped on each chunk by `RAGService.process_pdf`
(`rag_service.py` lines 51-56): the owning `document_id`, the
`chunk_index`, and the page number carried by the PDF loader
(`metadata.get("page")` may be absent, hence `Option`). -/
structure ChunkMeta where
  document_id : Nat
  chunk_index : Nat
  page : Option Nat
deriving DecidableEq, Repr

/-- A LangChain document, i.e. one retrievable chunk: `page_content` plus
its metadata. -/
structure Doc where
  page_content : String
  metadata : ChunkMeta
deriving DecidableEq, Repr

/-- One `{content, metadata}` source entry of a query result
(`rag_service.py` lines 136-140, `agent_rag_service.py` lines 205-209). -/
structure Source where
  content : String
  metadata : ChunkMeta
deriving DecidableEq, Repr

/-- A LangChain chat message as produced by `_get_chat_history`:
`HumanMessage` or `AIMessage` with a text content. -/
inductive Message where
  | human (content : String)
  | ai (content : String)
deriving DecidableEq, Repr

/-- A row of the `chat_history` table (`app/models/chat.py`).
`document_id` is the nullable foreign key declared with
`ondelete="SET NULL"`; `created_at` is the server timestamp, modelled
as a natural number. -/
structure ChatHistoryRow where
  id : Nat
  document_id : Option Nat
  session_id : String
  question : String
  answer : String
  sources_count : Nat
  created_at : Nat
deriving DecidableEq, Repr

/-- Descending recency, the `order_by(ChatHistory.created_at.desc())`
ordering used by both services' `_get_chat_history`. -/
def byRecencyDesc (a b : ChatHistoryRow) : Prop :=
  b.created_at ≤ a.created_at

instance : DecidableRel byRecencyDesc :=
  fun a b => inferInstanceAs (Decidable (b.created_at ≤ a.created_at))

instance : IsTotal ChatHistoryRow byRecencyDesc :=
  ⟨fun a b => Nat.le_total b.created_at a.created_at⟩

instance : IsTrans ChatHistoryRow byRecencyDesc :=
  ⟨fun _ _ _ hab hbc => Nat.le_trans hbc hab⟩

/-- Descending similarity score on scored chunks, the ranking order of
the vector backend. -/
def byScoreDesc (a b : Doc × Nat) : Prop :=
  b.2 ≤ a.2

instance : DecidableRel byScoreDesc :=
  fun a b => inferInstanceAs (Decidable (b.2 ≤ a.2))

/-- Modelled from the spec: the Pinecone vector-store search invoked by
both services is external to the repository, so its contract comes from
§4.2 of the specification: `search(query_embedding, k, filter?)` returns
up to `k` chunks ranked by descending similarity, and "if `filter`
specifies a `document_id`, only chunks with matching `document_id` are
eligible".  The similarity of the (embedded) query to each chunk is the
`score` argument. -/
def similarity_search (index : List Doc) (score : Doc → Nat) (k : Nat)
    (filter : Option Nat) : List Doc :=
  let eligible :=
    match filter with
    | some d => index.filter (fun c : Doc => c.metadata.document_id == d)
    | none => index
  ((((eligible.map (fun c => (c, score c))).insertionSort byScoreDesc).take k).map
    Prod.fst)

/-- Renders the page metadata as the tool does:
`doc.metadata.get('page', 'N/A')`. -/
def pageStr : Option Nat → String
  | some n => toString n
  | none => "N/A"

/-- The agent's retrieval tool `retrieve_documents`
(`agent_rag_service.py` lines 61-83): builds `search_kwargs` with `k = 4`
and, when the service's current document filter is set, a
`{"document_id": ...}` filter; performs the similarity search; returns
the formatted context string together with the retrieved documents as
artifact.  `current_document_id` stands for the
`service._current_document_id` value the closure reads; `score query`
gives the backend's similarity of each chunk to `query`. -/
def retrieve_documents (index : List Doc) (score : String → Doc → Nat)
    (current_document_id : Option Nat) (query : String) :
    String × List Doc :=
  let docs := similarity_search index (score query) 4 current_document_id
  (String.intercalate "\n\n"
    (docs.map (fun doc =>
      "Source (Page " ++ pageStr doc.metadata.page ++ "):\n" ++ doc.page_content)),
   docs)

/-- The ORM query of `_get_chat_history` (identical in
`rag_service.py` lines 149-159 and `agent_rag_service.py` lines 131-141):
filter the `chat_history` table by `session_id`, order by `created_at`
descending, truncate to `limit`, then reverse into chronological order. -/
def historyRecords (db : List ChatHistoryRow) (session_id : String)
    (limit : Nat) : List ChatHistoryRow :=
  ((((db.filter (fun r : ChatHistoryRow => r.session_id == session_id)).insertionSort
      byRecencyDesc).take limit).reverse)

/-- The full `_get_chat_history`: the selected records converted to
alternating `HumanMessage`/`AIMessage` pairs
(`rag_service.py` lines 162-167). -/
def _get_chat_history (db : List ChatHistoryRow) (session_id : String)
    (limit : Nat) : List Message :=
  (historyRecords db session_id limit).flatMap
    (fun r => [Message.human r.question, Message.ai r.answer])

/-- Modelled from the spec: the Retrieval Query Formulator (§4.4), whose
implementation is the branch built by the external
`create_history_aware_retriever` helper that `rag_service.py` lines
104-106 install: "When `history` is empty, the standalone query equals
the input question unchanged (no model call needed)"; when non-empty the
generation model rewrites the question, and an empty rewrite falls back
to the original question.  The returned flag records whether a
generation-model call was made. -/
def reformulate (llm : String → List Message → String) (question : String)
    (history : List Message) : String × Bool :=
  if history.isEmpty then
    (question, false)
  else
    let rewritten := llm question history
    (if rewritten = "" then question else rewritten, true)

/-- The classic strategy's result dict (`rag_service.py` lines 142-147). -/
structure QueryOutcome where
  question : String
  answer : String
  sources : List Source
  session_id : String
deriving DecidableEq, Repr

/-- `RAGService.query` (`rag_service.py` lines 69-147).  The history
lookup happens first and is not guarded, so a raising history store
(modelled as `Except.error`) propagates.  `search_kwargs` carry `k = 5`
and the `{"document_id": ...}` filter exactly when `document_id` is
present.  The history-aware retriever searches with the (possibly
reformulated) question, the answer chain is called on the original
question with the retrieved context and the history, and the sources are
the retrieved context documents verbatim. -/
def RAGService.query (index : List Doc) (score : String → Doc → Nat)
    (llmReformulate : String → List Message → String)
    (llmAnswer : String → List Doc → List Message → String)
    (historyStore : String → Except String (List Message))
    (question : String) (session_id : String) (document_id : Option Nat) :
    Except String QueryOutcome :=
  match historyStore session_id with
  | Except.error e => Except.error e
  | Except.ok chat_history =>
    let search_query := (reformulate llmReformulate question chat_history).1
    let context := similarity_search index (score search_query) 5 document_id
    let answer := llmAnswer question context chat_history
    Except.ok
      { question := question
        answer := answer
        sources := context.map (fun doc =>
          { content := doc.page_content, metadata := doc.metadata })
        session_id := session_id }

/-- A message of the agent transcript (`result["messages"]` in
`agent_rag_service.py`): a `HumanMessage`, an `AIMessage` (which carries
a `tool_calls` attribute, possibly the empty list), or a `ToolMessage`
carrying the retrieval tool's `artifact`, the list of retrieved
documents. -/
inductive AgentMsg where
  | human (content : String)
  | ai (content : String) (tool_calls : List String)
  | toolMsg (content : String) (artifact : List Doc)
deriving DecidableEq, Repr

/-- The `hasattr(msg, "tool_calls")` test of `agent_rag_service.py`
line 199: only `AIMessage` objects carry a `tool_calls` attribute. -/
def hasToolCallsAttr : AgentMsg → Bool
  | AgentMsg.ai _ _ => true
  | _ => false

/-- The `artifact` attribute read at `agent_rag_service.py` line 203:
present (and possibly empty) on `ToolMessage`, absent otherwise. -/
def artifactOf : AgentMsg → List Doc
  | AgentMsg.toolMsg _ a => a
  | _ => []

/-- Whether the model actually invoked the retrieval capability during
the interaction: a `ToolMessage` appears in the transcript exactly when
the tool was executed. -/
def retrievalInvoked (msgs : List AgentMsg) : Bool :=
  msgs.any (fun m =>
    match m with
    | AgentMsg.toolMsg _ _ => true
    | _ => false)

/-- The `.content` attribute of a transcript message. -/
def AgentMsg.content : AgentMsg → String
  | AgentMsg.human c => c
  | AgentMsg.ai c _ => c
  | AgentMsg.toolMsg c _ => c

/-- `result["messages"][-1].content` (`agent_rag_service.py` line 195). -/
def lastContent (msgs : List AgentMsg) : String :=
  match msgs.getLast? with
  | some m => m.content
  | none => ""

/-- The source entry built from an artifact document
(`agent_rag_service.py` lines 206-209): content truncated to 200
characters with an ellipsis appended, metadata verbatim. -/
def mkAgentSource (doc : Doc) : Source :=
  { content := doc.page_content.take 200 ++ "...", metadata := doc.metadata }

/-- Source extraction of `AgentRAGService.query`
(`agent_rag_service.py` lines 197-210): if some message has a
`tool_calls` attribute (i.e. some `AIMessage` exists), scan the
transcript for the first message whose `artifact` is truthy (non-empty)
and turn its documents into sources; otherwise sources stay empty. -/
def extractSources (msgs : List AgentMsg) : List Source :=
  if msgs.any hasToolCallsAttr then
    match msgs.find? (fun m => !(artifactOf m).isEmpty) with
    | some m => (artifactOf m).map mkAgentSource
    | none => []
  else []

/-- The agent strategy's result dict (`agent_rag_service.py` lines
214-220), including the `agent_used_retrieval` flag computed as
`len(sources) > 0`. -/
structure AgentQueryOutcome where
  question : String
  answer : String
  sources : List Source
  session_id : Option String
  agent_used_retrieval : Bool
deriving DecidableEq, Repr

/-- `AgentRAGService.query` (`agent_rag_service.py` lines 152-228).
The method stores `document_id` into the instance's
`_current_document_id` before invoking the agent, whose retrieval tool
reads that field; functionally the transcript the external agent loop
produces therefore depends on `document_id`, so the `agent` oracle takes
the in-flight filter together with the input messages.  History is only
fetched when a `session_id` is given; a raising history store is
re-raised by the `except` clause, so it is propagated as an error.
Answer, sources and the used-retrieval flag are computed from the
transcript exactly as lines 195-220 do. -/
def AgentRAGService.query (agent : Option Nat → List AgentMsg → List AgentMsg)
    (historyStore : String → Except String (List AgentMsg))
    (question : String) (session_id : Option String)
    (document_id : Option Nat) : Except String AgentQueryOutcome :=
  let histE : Except String (List AgentMsg) :=
    match session_id with
    | some sid => historyStore sid
    | none => Except.ok []
  match histE with
  | Except.error e => Except.error e
  | Except.ok chat_history =>
    let messages := chat_history ++ [AgentMsg.human question]
    let result := agent document_id messages
    let sources := extractSources result
    Except.ok
      { question := question
        answer := lastContent result
        sources := sources
        session_id := session_id
        agent_used_retrieval := decide (sources.length > 0) }

/-- The request schema (`app/schemas/chat.py`): `question`, optional
`document_id`, optional `session_id`. -/
structure ChatRequest where
  question : String
  document_id : Option Nat
  session_id : Option String
deriving DecidableEq, Repr

/-- The response schema (`app/schemas/chat.py`). -/
structure ChatResponse where
  question : String
  answer : String
  session_id : String
  sources : List Source
deriving DecidableEq, Repr

/-- `process_chat_request` (`app/routers/chat_common.py` lines 21-96;
`app/routers/chat.py` lines 23-94 duplicate the same logic inline).
`ragQuery` is the injected service's `query` bound to
(question, session_id, document_id); `freshUuid` is the value
`str(uuid.uuid4())` would produce for this request; `saveOk` tells
whether the `db.add`/`db.commit` pair succeeds; `nextId`/`now` are the
database-assigned primary key and timestamp.  A failing query is
re-raised as an HTTP 500; a failing save is rolled back and swallowed,
and the response is built from the query result either way. -/
def process_chat_request
    (ragQuery : String → String → Option Nat → Except String QueryOutcome)
    (db : List ChatHistoryRow) (saveOk : Bool) (freshUuid : String)
    (nextId now : Nat) (request : ChatRequest) :
    Except String (ChatResponse × List ChatHistoryRow) :=
  let session_id := request.session_id.getD freshUuid
  match ragQuery request.question session_id request.document_id with
  | Except.error e => Except.error ("Failed to process question: " ++ e)
  | Except.ok result =>
    let newDb :=
      if saveOk then
        db ++ [{ id := nextId
                 document_id := request.document_id
                 session_id := session_id
                 question := request.question
                 answer := result.answer
                 sources_count := result.sources.length
                 created_at := now }]
      else db
    Except.ok
      ({ question := request.question
         answer := result.answer
         session_id := session_id
         sources := result.sources }, newDb)

/-- The documents table status enum (`app/models/document.py`). -/
inductive DocumentStatus where
  | pending
  | processing
  | completed
  | failed
deriving DecidableEq, Repr

/-- A row of the `documents` table (`app/models/document.py`). -/
structure DocumentRecord where
  id : Nat
  filename : String
  file_path : String
  chunks_count : Nat
  status : DocumentStatus
deriving DecidableEq, Repr

/-- Deletion of a document as the ORM executes it: the
`Document.chat_history` relationship (`app/models/document.py` lines
31-35) is declared with `cascade="all, delete-orphan"`, so deleting a
`Document` through a SQLAlchemy session also deletes every
`ChatHistory` row whose `document_id` references it (the ORM cascade
runs before, and instead of, the database-level `ON DELETE` action). -/
def deleteDocumentORM (docs : List DocumentRecord)
    (chats : List ChatHistoryRow) (docId : Nat) :
    List DocumentRecord × List ChatHistoryRow :=
  (docs.filter (fun d : DocumentRecord => d.id != docId),
   chats.filter (fun c : ChatHistoryRow => c.document_id != some docId))

/-- Deletion of a document as the foreign-key declaration of
`app/models/chat.py` lines 11-16 (`ForeignKey("documents.id",
ondelete="SET NULL"), nullable=True`) describes it: the referencing
chat-history rows survive with their `document_id` cleared to null and
no other field changed. -/
def deleteDocumentSetNull (docs : List DocumentRecord)
    (chats : List ChatHistoryRow) (docId : Nat) :
    List DocumentRecord × List ChatHistoryRow :=
  (docs.filter (fun d : DocumentRecord => d.id != docId),
   chats.map (fun c : ChatHistoryRow =>
     if c.document_id == some docId then { c with document_id := none } else c))

/-!
Concurrency model for the model-directed strategy's document filter.

`get_agent_rag_service` (`app/services/__init__.py` lines 68-86) is a
plain FastAPI dependency: every HTTP request constructs its OWN
`AgentRAGService` instance (only the Pinecone client, embeddings and LLM
handles are process-wide singletons).  The `_current_document_id` field
written by `query` (line 176) and read by the closure-captured retrieval
tool (line 69) therefore lives on per-request state.  The model below
runs two concurrent requests A and B, each against its own instance
field, under an arbitrary interleaving of their steps.
-/

/-- The three points at which `AgentRAGService.query` touches the
mutable `_current_document_id` field: the assignment at line 176, the
read performed by the retrieval tool at lines 69-70, and the reset in
the `finally` block at line 228. -/
inductive AgentStep where
  | setFilter
  | retrieve
  | reset
deriving DecidableEq, Repr

/-- The field-touching steps of one `query` call, in program order. -/
def queryProgram : List AgentStep :=
  [AgentStep.setFilter, AgentStep.retrieve, AgentStep.reset]

/-- Joint state of two in-flight agent queries A and B: each request's
remaining steps, each request's own instance field
`_current_document_id` (`filterA`/`filterB`), and the filter value each
request's retrieval tool observed when it ran (`none` while it has not
run yet). -/
structure TwoRequests where
  restA : List AgentStep
  restB : List AgentStep
  filterA : Option Nat
  filterB : Option Nat
  obsA : Option (Option Nat)
  obsB : Option (Option Nat)
deriving DecidableEq, Repr

/-- Initial state: both requests still have their whole program to run,
both instances hold the constructor's `_current_document_id = None`
(`agent_rag_service.py` line 43), neither retrieval has run. -/
def initTwo : TwoRequests :=
  { restA := queryProgram
    restB := queryProgram
    filterA := none
    filterB := none
    obsA := none
    obsB := none }

/-- Execute request A's next step (with its query's `document_id = dA`)
against A's own instance field. -/
def stepA (dA : Option Nat) (s : TwoRequests) : TwoRequests :=
  match s.restA with
  | [] => s
  | AgentStep.setFilter :: rest => { s with restA := rest, filterA := dA }
  | AgentStep.retrieve :: rest => { s with restA := rest, obsA := some s.filterA }
  | AgentStep.reset :: rest => { s with restA := rest, filterA := none }

/-- Execute request B's next step (with its query's `document_id = dB`)
against B's own instance field. -/
def stepB (dB : Option Nat) (s : TwoRequests) : TwoRequests :=
  match s.restB with
  | [] => s
  | AgentStep.setFilter :: rest => { s with restB := rest, filterB := dB }
  | AgentStep.retrieve :: rest => { s with restB := rest, obsB := some s.filterB }
  | AgentStep.reset :: rest => { s with restB := rest, filterB := none }

/-- Run the two requests under an arbitrary interleaving: each schedule
entry says which request executes its next step (a request whose program
is exhausted idles). -/
def runSched (dA dB : Option Nat) (sched : List Bool) (s : TwoRequests) :
    TwoRequests :=
  match sched with
  | [] => s
  | true :: rest => runSched dA dB rest (stepA dA s)
  | false :: rest => runSched dA dB rest (stepB dB s)

/-!
Execution invariants of the two-request interleaving model: request A's
progress determines what A's own field and observation hold, whatever B
does in between.
-/

/-- Invariant tying request A's remaining program to A's instance field
and to the filter its retrieval observed. -/
def InvA (dA : Option Nat) (s : TwoRequests) : Prop :=
  (s.restA = queryProgram ∧ s.obsA = none) ∨
  (s.restA = [AgentStep.retrieve, AgentStep.reset] ∧ s.filterA = dA ∧
    s.obsA = none) ∨
  (s.restA = [AgentStep.reset] ∧ s.obsA = some dA) ∨
  (s.restA = [] ∧ s.obsA = some dA)

/-- Invariant tying request B's remaining program to B's instance field
and to the filter its retrieval observed. -/
def InvB (dB : Option Nat) (s : TwoRequests) : Prop :=
  (s.restB = queryProgram ∧ s.obsB = none) ∨
  (s.restB = [AgentStep.retrieve, AgentStep.reset] ∧ s.filterB = dB ∧
    s.obsB = none) ∨
  (s.restB = [AgentStep.reset] ∧ s.obsB = some dB) ∨
  (s.restB = [] ∧ s.obsB = some dB)

/-! Example fixtures used by witnesses and counterexamples. -/

/-- Example chunk belonging to document 1. -/
def docEx1 : Doc :=
  { page_content := "alpha", metadata := { document_id := 1, chunk_index := 0, page := some 1 } }

/-- Example chunk belonging to document 2. -/
def docEx2 : Doc :=
  { page_content := "beta", metadata := { document_id := 2, chunk_index := 0, page := some 3 } }

/-- Example index holding chunks of two documents. -/
def indexEx : List Doc := [docEx1, docEx2]

/-- Example scoring making document 2's chunk the more similar one. -/
def scoreEx : String → Doc → Nat :=
  fun _ d => if d.metadata.document_id == 2 then 10 else 1

/-- Example agent loop that answers without invoking retrieval. -/
def agentEx : Option Nat → List AgentMsg → List AgentMsg :=
  fun _ _ => [AgentMsg.ai "hello" []]

/-- Example agent transcript in which the model invoked the retrieval
tool once and the tool returned zero chunks (an empty artifact). -/
def agentCexEmptyRetrieval : Option Nat → List AgentMsg → List AgentMsg :=
  fun _ _ =>
    [AgentMsg.human "q",
     AgentMsg.ai "" ["retrieve_documents"],
     AgentMsg.toolMsg "" [],
     AgentMsg.ai "I found nothing relevant" []]

/-- Example agent transcript in which the model invoked the retrieval
tool once and the tool returned one chunk. -/
def agentExRetrieved : Option Nat → List AgentMsg → List AgentMsg :=
  fun _ _ =>
    [AgentMsg.human "q",
     AgentMsg.ai "" ["retrieve_documents"],
     AgentMsg.toolMsg "alpha" [docEx1],
     AgentMsg.ai "it is about alpha" []]

/-- Example RAG service behaviour: always answers "ans" with no
sources, echoing its inputs. -/
def ragQueryEx : String → String → Option Nat → Except String QueryOutcome :=
  fun q sid _ =>
    Except.ok { question := q, answer := "ans", sources := [], session_id := sid }

/-- Example document record with id 1. -/
def docRecEx : DocumentRecord :=
  { id := 1, filename := "a.pdf", file_path := "uploads/x_a.pdf",
    chunks_count := 3, status := DocumentStatus.completed }

/-- Example chat-history row referencing document 1. -/
def turnEx : ChatHistoryRow :=
  { id := 1, document_id := some 1, session_id := "s1", question := "What is alpha?",
    answer := "Alpha is a letter.", sources_count := 2, created_at := 5 }

/-- Example chat-history table: two turns of session "s1" (timestamps
5 and 7) and one turn of session "s2" (timestamp 6). -/
def dbEx : List ChatHistoryRow :=
  [turnEx,
   { turnEx with id := 2, session_id := "s2", created_at := 6 },
   { turnEx with id := 3, question := "And beta?", created_at := 7 }]

/-! ## Helper lemmas -/

/-- A chunk returned by a search filtered to document `D` carries
`document_id = D`. -/
theorem mem_similarity_search_doc (index : List Doc) (score : Doc → Nat)
    (k D : Nat) (doc : Doc)
    (hd : doc ∈ similarity_search index score k (some D)) :
    doc.metadata.document_id = D := by
  unfold similarity_search at hd
  obtain ⟨p, hp, hfst⟩ := List.mem_map.mp hd
  have hp2 : p ∈ ((index.filter (fun c : Doc => c.metadata.document_id == D)).map
      (fun c => (c, score c))).insertionSort byScoreDesc :=
    List.take_subset _ _ hp
  have hp3 : p ∈ (index.filter (fun c : Doc => c.metadata.document_id == D)).map
      (fun c => (c, score c)) :=
    (List.perm_insertionSort byScoreDesc _).mem_iff.mp hp2
  obtain ⟨c, hc, hcp⟩ := List.mem_map.mp hp3
  have hpred := (List.mem_filter.mp hc).2
  have hceq : c = doc := by
    have : p.1 = doc := hfst
    rw [← hcp] at this
    exact this
  subst hceq
  simpa using hpred

/-- A chunk in the retrieval tool's artifact, when the tool ran with
filter `D`, carries `document_id = D`. -/
theorem mem_retrieve_documents_doc (index : List Doc)
    (score : String → Doc → Nat) (D : Nat) (q : String) (doc : Doc)
    (hd : doc ∈ (retrieve_documents index score (some D) q).2) :
    doc.metadata.document_id = D := by
  unfold retrieve_documents at hd
  exact mem_similarity_search_doc index (score q) 4 D doc hd

/-- Every source extracted from an agent transcript comes from the
artifact of some message of the transcript. -/
theorem extractSources_from_artifact (msgs : List AgentMsg) (s : Source)
    (hs : s ∈ extractSources msgs) :
    ∃ m ∈ msgs, ∃ doc ∈ artifactOf m, s = mkAgentSource doc := by
  unfold extractSources at hs
  by_cases hany : msgs.any hasToolCallsAttr
  · rw [if_pos hany] at hs
    cases hfind : msgs.find? (fun m => !(artifactOf m).isEmpty) with
    | none => rw [hfind] at hs; simp at hs
    | some m =>
      rw [hfind] at hs
      obtain ⟨doc, hdoc, hsd⟩ := List.mem_map.mp hs
      exact ⟨m, List.mem_of_find?_eq_some hfind, doc, hdoc, hsd.symm⟩
  · rw [if_neg hany] at hs
    simp at hs

/-! ## C1 — document isolation -/

/-- C1: For every query invoked with a document filter D (classic or
model-directed strategy), every chunk in the returned outcome's sources
has `document_id` equal to D; chunks of any other document are excluded
from the retrieval result even if more similar to the query.  For the
model-directed strategy the hypothesis states what the code guarantees
at the call sites: every artifact in the transcript produced while the
in-flight filter is D is an output of the retrieval tool run with
filter D. -/
theorem C1_document_isolation (index : List Doc)
    (score : String → Doc → Nat)
    (llmReformulate : String → List Message → String)
    (llmAnswer : String → List Doc → List Message → String)
    (historyStore : String → Except String (List Message))
    (agent : Option Nat → List AgentMsg → List AgentMsg)
    (agentHistoryStore : String → Except String (List AgentMsg))
    (q sid : String) (sidA : Option String) (D : Nat)
    (hart : ∀ msgs, ∀ m ∈ agent (some D) msgs,
      artifactOf m = [] ∨
        ∃ q2, artifactOf m = (retrieve_documents index score (some D) q2).2) :
    (∀ outcome,
      RAGService.query index score llmReformulate llmAnswer historyStore
        q sid (some D) = Except.ok outcome →
      ∀ s ∈ outcome.sources, s.metadata.document_id = D) ∧
    (∀ outcome,
      AgentRAGService.query agent agentHistoryStore q sidA (some D) =
        Except.ok outcome →
      ∀ s ∈ outcome.sources, s.metadata.document_id = D) := by
  constructor
  · intro outcome hq s hs
    unfold RAGService.query at hq
    cases hh : historyStore sid with
    | error e => rw [hh] at hq; exact absurd hq (by simp)
    | ok chat_history =>
      rw [hh] at hq
      simp only [Except.ok.injEq] at hq
      rw [← hq] at hs
      simp only at hs
      obtain ⟨doc, hdoc, hsd⟩ := List.mem_map.mp hs
      rw [← hsd]
      exact mem_similarity_search_doc index _ 5 D doc hdoc
  · intro outcome hq s hs
    unfold AgentRAGService.query at hq
    cases hh : (match sidA with
      | some sid => agentHistoryStore sid
      | none => Except.ok ([] : List AgentMsg)) with
    | error e => rw [hh] at hq; exact absurd hq (by simp)
    | ok chat_history =>
      rw [hh] at hq
      simp only [Except.ok.injEq] at hq
      rw [← hq] at hs
      simp only at hs
      obtain ⟨m, hm, doc, hdoc, hsd⟩ := extractSources_from_artifact _ s hs
      rcases hart _ m hm with hnil | ⟨q2, hq2⟩
      · rw [hnil] at hdoc; simp at hdoc
      · rw [hq2] at hdoc
        rw [hsd]
        exact mem_retrieve_documents_doc index score D q2 doc hdoc

theorem C1_document_isolation_witness :
    (∀ msgs, ∀ m ∈ agentEx (some 1) msgs,
      artifactOf m = [] ∨
        ∃ q2, artifactOf m = (retrieve_documents indexEx scoreEx (some 1) q2).2) ∧
    ((∀ outcome,
      RAGService.query indexEx scoreEx (fun q _ => q) (fun _ _ _ => "ans")
        (fun _ => Except.ok []) "q" "s" (some 1) = Except.ok outcome →
      ∀ s ∈ outcome.sources, s.metadata.document_id = 1) ∧
    (∀ outcome,
      AgentRAGService.query agentEx (fun _ => Except.ok []) "q" none (some 1) =
        Except.ok outcome →
      ∀ s ∈ outcome.sources, s.metadata.document_id = 1)) := by
  have hart : ∀ msgs, ∀ m ∈ agentEx (some 1) msgs,
      artifactOf m = [] ∨
        ∃ q2, artifactOf m = (retrieve_documents indexEx scoreEx (some 1) q2).2 := by
    intro msgs m hm
    simp only [agentEx, List.mem_singleton] at hm
    subst hm
    exact Or.inl rfl
  exact ⟨hart,
    C1_document_isolation indexEx scoreEx (fun q _ => q) (fun _ _ _ => "ans")
      (fun _ => Except.ok []) agentEx (fun _ => Except.ok []) "q" "s" none 1 hart⟩

/-! ## C2 — per-request scoping of the document filter -/

/-- Request A's own step preserves A's invariant. -/
theorem InvA_stepA (dA : Option Nat) (s : TwoRequests) (h : InvA dA s) :
    InvA dA (stepA dA s) := by
  rcases h with ⟨h1, h2⟩ | ⟨h1, h2, h3⟩ | ⟨h1, h2⟩ | ⟨h1, h2⟩ <;>
    simp [stepA, h1, InvA, queryProgram, h2]

/-- Request B's step leaves A's program, field and observation alone,
hence preserves A's invariant. -/
theorem InvA_stepB (dA dB : Option Nat) (s : TwoRequests) (h : InvA dA s) :
    InvA dA (stepB dB s) := by
  have hA : (stepB dB s).restA = s.restA ∧ (stepB dB s).filterA = s.filterA ∧
      (stepB dB s).obsA = s.obsA := by
    unfold stepB
    rcases hr : s.restB with _ | ⟨st, rest⟩
    · exact ⟨rfl, rfl, rfl⟩
    · cases st <;> exact ⟨rfl, rfl, rfl⟩
  unfold InvA at h ⊢
  rw [hA.1, hA.2.1, hA.2.2]
  exact h

/-- Request B's own step preserves B's invariant. -/
theorem InvB_stepB (dB : Option Nat) (s : TwoRequests) (h : InvB dB s) :
    InvB dB (stepB dB s) := by
  rcases h with ⟨h1, h2⟩ | ⟨h1, h2, h3⟩ | ⟨h1, h2⟩ | ⟨h1, h2⟩ <;>
    simp [stepB, h1, InvB, queryProgram, h2]

/-- Request A's step leaves B's program, field and observation alone,
hence preserves B's invariant. -/
theorem InvB_stepA (dA dB : Option Nat) (s : TwoRequests) (h : InvB dB s) :
    InvB dB (stepA dA s) := by
  have hB : (stepA dA s).restB = s.restB ∧ (stepA dA s).filterB = s.filterB ∧
      (stepA dA s).obsB = s.obsB := by
    unfold stepA
    rcases hr : s.restA with _ | ⟨st, rest⟩
    · exact ⟨rfl, rfl, rfl⟩
    · cases st <;> exact ⟨rfl, rfl, rfl⟩
  unfold InvB at h ⊢
  rw [hB.1, hB.2.1, hB.2.2]
  exact h

/-- Both invariants are preserved by an arbitrary schedule. -/
theorem Inv_runSched (dA dB : Option Nat) (sched : List Bool)
    (s : TwoRequests) (hA : InvA dA s) (hB : InvB dB s) :
    InvA dA (runSched dA dB sched s) ∧ InvB dB (runSched dA dB sched s) := by
  induction sched generalizing s with
  | nil => exact ⟨hA, hB⟩
  | cons w rest ih =>
    cases w with
    | true =>
      exact ih (stepA dA s) (InvA_stepA dA s hA) (InvB_stepA dA dB s hB)
    | false =>
      exact ih (stepB dB s) (InvA_stepB dA dB s hA) (InvB_stepB dB s hB)

/-- C2: The document filter applied by every retrieval invocation of
the model-directed strategy is scoped to the single in-flight request.
Each HTTP request constructs its own `AgentRAGService`
(`get_agent_rag_service`), so `_current_document_id` is per-request
state; under every interleaving of two concurrent queries with filters
`dA` and `dB`, whenever A's retrieval has run it observed exactly `dA`,
and whenever B's has run it observed exactly `dB` — never the other
request's filter. -/
theorem C2_filter_scoped_per_request (dA dB : Option Nat)
    (sched : List Bool) :
    ((runSched dA dB sched initTwo).obsA = none ∨
      (runSched dA dB sched initTwo).obsA = some dA) ∧
    ((runSched dA dB sched initTwo).obsB = none ∨
      (runSched dA dB sched initTwo).obsB = some dB) := by
  have h0A : InvA dA initTwo := Or.inl ⟨rfl, rfl⟩
  have h0B : InvB dB initTwo := Or.inl ⟨rfl, rfl⟩
  obtain ⟨hA, hB⟩ := Inv_runSched dA dB sched initTwo h0A h0B
  constructor
  · rcases hA with ⟨_, h⟩ | ⟨_, _, h⟩ | ⟨_, h⟩ | ⟨_, h⟩
    · exact Or.inl h
    · exact Or.inl h
    · exact Or.inr h
    · exact Or.inr h
  · rcases hB with ⟨_, h⟩ | ⟨_, _, h⟩ | ⟨_, h⟩ | ⟨_, h⟩
    · exact Or.inl h
    · exact Or.inl h
    · exact Or.inr h
    · exact Or.inr h

/-! ## C3 — history lookup failure -/

/-- C3 counterexample: with a history store that raises, both
strategies fail the whole query with that error instead of proceeding
with empty history — the claim is false. -/
theorem C3_counterexample :
    RAGService.query [] (fun _ _ => 0) (fun q _ => q) (fun _ _ _ => "an answer")
      (fun _ => Except.error "history lookup failed") "q" "s" none =
      Except.error "history lookup failed" ∧
    AgentRAGService.query agentEx
      (fun _ => Except.error "history lookup failed") "q" (some "s") none =
      Except.error "history lookup failed" :=
  ⟨rfl, rfl⟩

/-- C3 amended: a failing session-history lookup propagates and fails
the whole query, in both strategies; neither `RAGService.query` nor
`AgentRAGService.query` guards the lookup. -/
theorem C3_history_failure_fails_query (index : List Doc)
    (score : String → Doc → Nat)
    (llmReformulate : String → List Message → String)
    (llmAnswer : String → List Doc → List Message → String)
    (historyStore : String → Except String (List Message))
    (agent : Option Nat → List AgentMsg → List AgentMsg)
    (agentHistoryStore : String → Except String (List AgentMsg))
    (q sid : String) (d : Option Nat) (e : String)
    (heC : historyStore sid = Except.error e)
    (heA : agentHistoryStore sid = Except.error e) :
    RAGService.query index score llmReformulate llmAnswer historyStore
      q sid d = Except.error e ∧
    AgentRAGService.query agent agentHistoryStore q (some sid) d =
      Except.error e := by
  constructor
  · unfold RAGService.query
    rw [heC]
  · unfold AgentRAGService.query
    simp only [heA]

theorem C3_history_failure_fails_query_witness :
    ((fun _ : String => Except.error (α := List Message) "boom") "s" =
        Except.error "boom" ∧
      (fun _ : String => Except.error (α := List AgentMsg) "boom") "s" =
        Except.error "boom") ∧
    (RAGService.query [] (fun _ _ => 0) (fun q _ => q) (fun _ _ _ => "ans")
        (fun _ => Except.error "boom") "q" "s" none = Except.error "boom" ∧
      AgentRAGService.query agentEx (fun _ => Except.error "boom") "q"
        (some "s") none = Except.error "boom") :=
  ⟨⟨rfl, rfl⟩,
    C3_history_failure_fails_query [] (fun _ _ => 0) (fun q _ => q)
      (fun _ _ _ => "ans") (fun _ => Except.error "boom") agentEx
      (fun _ => Except.error "boom") "q" "s" none "boom" rfl rfl⟩

/-! ## C4 — empty model response -/

/-- C4 counterexample: when the generation model returns the empty
string, the classic strategy returns a successful outcome whose answer
is the empty string — no synthesis error is raised, so the claim is
false. -/
theorem C4_counterexample :
    ∃ outcome,
      RAGService.query [] (fun _ _ => 0) (fun q _ => q) (fun _ _ _ => "")
        (fun _ => Except.ok []) "q" "s" none = Except.ok outcome ∧
      outcome.answer = "" :=
  ⟨{ question := "q", answer := "", sources := [], session_id := "s" },
    rfl, rfl⟩

/-- C4 amended: both strategies return the generation model's final
output verbatim as the outcome's answer — no emptiness check is
performed, so an empty model response is returned as an empty answer in
a successful outcome rather than surfaced as a synthesis failure. -/
theorem C4_answer_is_model_output_verbatim (index : List Doc)
    (score : String → Doc → Nat)
    (llmReformulate : String → List Message → String)
    (llmAnswer : String → List Doc → List Message → String)
    (historyStore : String → Except String (List Message))
    (agent : Option Nat → List AgentMsg → List AgentMsg)
    (agentHistoryStore : String → Except String (List AgentMsg))
    (q sid : String) (sidA : Option String) (d : Option Nat)
    (hist : List Message) (histA : List AgentMsg)
    (hC : historyStore sid = Except.ok hist)
    (hA : (match sidA with
      | some s => agentHistoryStore s
      | none => Except.ok []) = Except.ok histA) :
    (∃ outcome,
      RAGService.query index score llmReformulate llmAnswer historyStore
        q sid d = Except.ok outcome ∧
      outcome.answer = llmAnswer q
        (similarity_search index (score ((reformulate llmReformulate q hist).1))
          5 d) hist) ∧
    (∃ outcome,
      AgentRAGService.query agent agentHistoryStore q sidA d =
        Except.ok outcome ∧
      outcome.answer = lastContent (agent d (histA ++ [AgentMsg.human q]))) := by
  constructor
  · unfold RAGService.query
    rw [hC]
    exact ⟨_, rfl, rfl⟩
  · unfold AgentRAGService.query
    simp only [hA]
    exact ⟨_, rfl, rfl⟩

theorem C4_answer_is_model_output_verbatim_witness :
    ((fun _ : String => Except.ok (ε := String) ([] : List Message)) "s" =
        Except.ok [] ∧
      (match (none : Option String) with
        | some s => (fun _ : String => Except.ok (ε := String) ([] : List AgentMsg)) s
        | none => Except.ok []) = Except.ok ([] : List AgentMsg)) ∧
    ((∃ outcome,
      RAGService.query [] (fun _ _ => 0) (fun q _ => q) (fun _ _ _ => "")
        (fun _ => Except.ok []) "q" "s" none = Except.ok outcome ∧
      outcome.answer = (fun (_ : String) (_ : List Doc) (_ : List Message) => "") "q"
        (similarity_search [] ((fun _ _ => 0) ((reformulate (fun q _ => q) "q" []).1))
          5 none) []) ∧
    (∃ outcome,
      AgentRAGService.query agentEx (fun _ => Except.ok []) "q" none none =
        Except.ok outcome ∧
      outcome.answer = lastContent (agentEx none ([] ++ [AgentMsg.human "q"])))) :=
  ⟨⟨rfl, rfl⟩,
    C4_answer_is_model_output_verbatim [] (fun _ _ => 0) (fun q _ => q)
      (fun _ _ _ => "") (fun _ => Except.ok []) agentEx (fun _ => Except.ok [])
      "q" "s" none none [] [] rfl rfl⟩

/-! ## C5 — the used-retrieval flag -/

/-- C5 counterexample: the model invoked the retrieval tool once, the
tool returned zero chunks, and the outcome's `agent_used_retrieval` flag
is `false` — the claim that the flag is true whenever retrieval was
invoked is false. -/
theorem C5_counterexample :
    ∃ outcome,
      AgentRAGService.query agentCexEmptyRetrieval (fun _ => Except.ok [])
        "q" none none = Except.ok outcome ∧
      retrievalInvoked (agentCexEmptyRetrieval none [AgentMsg.human "q"]) = true ∧
      outcome.agent_used_retrieval = false :=
  ⟨_, rfl, rfl, rfl⟩

/-- C5 amended: `agent_used_retrieval` is computed as
`len(sources) > 0`, so (whenever the transcript contains an `AIMessage`,
which always holds when the agent produced an answer) the flag is true
iff some retrieval invocation returned a non-empty chunk list; an
invocation returning zero chunks does not set it.  Sources are extracted
from the first invocation whose artifact is non-empty — not from the
first invocation outright — content-truncated for display. -/
theorem C5_flag_iff_nonempty_retrieval
    (agent : Option Nat → List AgentMsg → List AgentMsg)
    (historyStore : String → Except String (List AgentMsg))
    (q : String) (sid : Option String) (d : Option Nat)
    (hist : List AgentMsg)
    (hh : (match sid with
      | some s => historyStore s
      | none => Except.ok []) = Except.ok hist)
    (hai : (agent d (hist ++ [AgentMsg.human q])).any hasToolCallsAttr = true) :
    ∃ outcome,
      AgentRAGService.query agent historyStore q sid d = Except.ok outcome ∧
      (outcome.agent_used_retrieval = true ↔
        ∃ m ∈ agent d (hist ++ [AgentMsg.human q]), artifactOf m ≠ []) ∧
      (∀ m, (agent d (hist ++ [AgentMsg.human q])).find?
          (fun m2 => !(artifactOf m2).isEmpty) = some m →
        outcome.sources = (artifactOf m).map mkAgentSource) := by
  unfold AgentRAGService.query
  simp only [hh]
  refine ⟨_, rfl, ?_, ?_⟩
  · show decide ((extractSources (agent d (hist ++ [AgentMsg.human q]))).length > 0) = true ↔ _
    unfold extractSources
    rw [if_pos hai]
    cases hfind : (agent d (hist ++ [AgentMsg.human q])).find?
        (fun m2 => !(artifactOf m2).isEmpty) with
    | none =>
      simp only [List.length_nil, gt_iff_lt, Nat.lt_irrefl, decide_eq_true_eq]
      constructor
      · intro h; exact absurd h (by simp)
      · rintro ⟨m, hm, hne⟩
        have := List.find?_eq_none.mp hfind m hm
        simp only [Bool.not_eq_true, Bool.not_eq_false] at this
        exact absurd (List.isEmpty_iff.mp (by simpa using this)) hne
    | some m =>
      have hpred := List.find?_some hfind
      simp only [Bool.not_eq_true'] at hpred
      have hne : artifactOf m ≠ [] := by
        intro hcon
        rw [hcon] at hpred
        simp at hpred
      constructor
      · intro _
        exact ⟨m, List.mem_of_find?_eq_some hfind, hne⟩
      · intro _
        simp only [List.length_map, decide_eq_true_eq]
        exact List.length_pos.mpr hne
  · intro m hfind
    show extractSources _ = _
    unfold extractSources
    rw [if_pos hai, hfind]

theorem C5_flag_iff_nonempty_retrieval_witness :
    ((match (none : Option String) with
      | some s => (fun _ : String => Except.ok (ε := String) ([] : List AgentMsg)) s
      | none => Except.ok []) = Except.ok ([] : List AgentMsg) ∧
      (agentExRetrieved none ([] ++ [AgentMsg.human "q"])).any hasToolCallsAttr = true) ∧
    (∃ outcome,
      AgentRAGService.query agentExRetrieved (fun _ => Except.ok []) "q" none none =
        Except.ok outcome ∧
      (outcome.agent_used_retrieval = true ↔
        ∃ m ∈ agentExRetrieved none ([] ++ [AgentMsg.human "q"]), artifactOf m ≠ []) ∧
      (∀ m, (agentExRetrieved none ([] ++ [AgentMsg.human "q"])).find?
          (fun m2 => !(artifactOf m2).isEmpty) = some m →
        outcome.sources = (artifactOf m).map mkAgentSource)) :=
  ⟨⟨rfl, rfl⟩,
    C5_flag_iff_nonempty_retrieval agentExRetrieved (fun _ => Except.ok [])
      "q" none none [] rfl rfl⟩

/-! ## C6 — the session-history contract -/

/-- C6: `history(session_id, limit=N)` returns at most N turns; every
returned turn belongs to the requested session; the turns are ordered
oldest first; they are the most recent turns of the session (any session
turn left out is no newer than every returned one); and a session with
no turns yields an empty sequence, not an error. -/
theorem C6_history_contract (db : List ChatHistoryRow) (sid : String)
    (N : Nat) :
    (historyRecords db sid N).length ≤ N ∧
    (∀ r ∈ historyRecords db sid N, r.session_id = sid) ∧
    List.Sorted (fun a b : ChatHistoryRow => a.created_at ≤ b.created_at)
      (historyRecords db sid N) ∧
    (∀ x ∈ db, x.session_id = sid → x ∉ historyRecords db sid N →
      ∀ y ∈ historyRecords db sid N, x.created_at ≤ y.created_at) ∧
    ((∀ r ∈ db, r.session_id ≠ sid) →
      historyRecords db sid N = [] ∧ _get_chat_history db sid N = []) := by
  have hrec : historyRecords db sid N =
      (((db.filter (fun r : ChatHistoryRow => r.session_id == sid)).insertionSort
        byRecencyDesc).take N).reverse := rfl
  have hsorted : List.Sorted byRecencyDesc
      ((db.filter (fun r : ChatHistoryRow => r.session_id == sid)).insertionSort
        byRecencyDesc) :=
    List.sorted_insertionSort byRecencyDesc _
  have hmem_rec : ∀ r, r ∈ historyRecords db sid N →
      r ∈ db.filter (fun r : ChatHistoryRow => r.session_id == sid) := by
    intro r hr
    rw [hrec, List.mem_reverse] at hr
    exact (List.perm_insertionSort byRecencyDesc _).mem_iff.mp
      (List.take_subset _ _ hr)
  refine ⟨?_, ?_, ?_, ?_, ?_⟩
  · rw [hrec, List.length_reverse, List.length_take]
    exact min_le_left _ _
  · intro r hr
    have := (List.mem_filter.mp (hmem_rec r hr)).2
    simpa using this
  · rw [hrec]
    apply List.pairwise_reverse.mpr
    have htake : List.Pairwise byRecencyDesc
        (((db.filter (fun r : ChatHistoryRow => r.session_id == sid)).insertionSort
          byRecencyDesc).take N) :=
      hsorted.sublist (List.take_sublist _ _)
    exact htake.imp (fun h => h)
  · intro x hx hxs hxnot y hy
    have hxf : x ∈ db.filter (fun r : ChatHistoryRow => r.session_id == sid) :=
      List.mem_filter.mpr ⟨hx, by simpa using hxs⟩
    have hxsorted : x ∈ (db.filter
        (fun r : ChatHistoryRow => r.session_id == sid)).insertionSort
        byRecencyDesc :=
      (List.perm_insertionSort byRecencyDesc _).mem_iff.mpr hxf
    have hxnottake : x ∉ ((db.filter
        (fun r : ChatHistoryRow => r.session_id == sid)).insertionSort
        byRecencyDesc).take N := by
      intro hc
      exact hxnot (by rw [hrec, List.mem_reverse]; exact hc)
    have hxdrop : x ∈ ((db.filter
        (fun r : ChatHistoryRow => r.session_id == sid)).insertionSort
        byRecencyDesc).drop N := by
      have happ := List.take_append_drop N ((db.filter
        (fun r : ChatHistoryRow => r.session_id == sid)).insertionSort
        byRecencyDesc)
      have hx2 : x ∈ ((db.filter
          (fun r : ChatHistoryRow => r.session_id == sid)).insertionSort
          byRecencyDesc).take N ++ ((db.filter
          (fun r : ChatHistoryRow => r.session_id == sid)).insertionSort
          byRecencyDesc).drop N := by
        rw [happ]; exact hxsorted
      rcases List.mem_append.mp hx2 with h | h
      · exact absurd h hxnottake
      · exact h
    have hytake : y ∈ ((db.filter
        (fun r : ChatHistoryRow => r.session_id == sid)).insertionSort
        byRecencyDesc).take N := by
      rw [hrec, List.mem_reverse] at hy
      exact hy
    have hpw : List.Pairwise byRecencyDesc (((db.filter
        (fun r : ChatHistoryRow => r.session_id == sid)).insertionSort
        byRecencyDesc).take N ++ ((db.filter
        (fun r : ChatHistoryRow => r.session_id == sid)).insertionSort
        byRecencyDesc).drop N) := by
      rw [List.take_append_drop]
      exact hsorted
    exact (List.pairwise_append.mp hpw).2.2 y hytake x hxdrop
  · intro hnone
    have hempty : historyRecords db sid N = [] := by
      rw [List.eq_nil_iff_forall_not_mem]
      intro x hx
      have hmem := List.mem_filter.mp (hmem_rec x hx)
      exact hnone x hmem.1 (by simpa using hmem.2)
    refine ⟨hempty, ?_⟩
    unfold _get_chat_history
    rw [hempty]
    rfl

theorem C6_history_contract_witness :
    (historyRecords dbEx "s1" 2).length ≤ 2 ∧
    (∀ r ∈ historyRecords dbEx "s1" 2, r.session_id = "s1") ∧
    List.Sorted (fun a b : ChatHistoryRow => a.created_at ≤ b.created_at)
      (historyRecords dbEx "s1" 2) ∧
    (∀ x ∈ dbEx, x.session_id = "s1" → x ∉ historyRecords dbEx "s1" 2 →
      ∀ y ∈ historyRecords dbEx "s1" 2, x.created_at ≤ y.created_at) ∧
    ((∀ r ∈ dbEx, r.session_id ≠ "s1") →
      historyRecords dbEx "s1" 2 = [] ∧ _get_chat_history dbEx "s1" 2 = []) :=
  C6_history_contract dbEx "s1" 2

/-- Unfolding lemma: when the service query succeeds,
`process_chat_request` returns the response built from the result and
the database extended by the new row exactly when the save succeeded. -/
theorem process_chat_request_ok
    (ragQuery : String → String → Option Nat → Except String QueryOutcome)
    (db : List ChatHistoryRow) (saveOk : Bool) (freshUuid : String)
    (nextId now : Nat) (request : ChatRequest) (result : QueryOutcome)
    (hq : ragQuery request.question (request.session_id.getD freshUuid)
      request.document_id = Except.ok result) :
    process_chat_request ragQuery db saveOk freshUuid nextId now request =
      Except.ok
        ({ question := request.question
           answer := result.answer
           session_id := request.session_id.getD freshUuid
           sources := result.sources },
         if saveOk then
           db ++ [{ id := nextId
                    document_id := request.document_id
                    session_id := request.session_id.getD freshUuid
                    question := request.question
                    answer := result.answer
                    sources_count := result.sources.length
                    created_at := now }]
         else db) := by
  unfold process_chat_request
  simp only [hq]

/-! ## C7 — deleting a document versus its chat-history turns -/

/-- C7: at the failing input — one document (id 1) with one chat-history
turn referencing it — the ORM deletion dictated by
`cascade="all, delete-orphan"` removes the turn together with the
document, while the `ondelete="SET NULL"` behaviour the claim describes
would have kept the turn with its reference cleared and every other
field unchanged. -/
theorem C7_cascade_deletes_turn :
    deleteDocumentORM [docRecEx] [turnEx] 1 = ([], []) ∧
    deleteDocumentSetNull [docRecEx] [turnEx] 1 =
      ([], [{ turnEx with document_id := none }]) :=
  ⟨rfl, rfl⟩

/-! ## C8 — persistence failure after a successful answer -/

/-- C8: once the query produced a result, the caller-visible response is
identical whether persisting the conversation turn succeeds or fails:
both runs return the same successful response carrying the produced
answer and sources, and the failing save leaves the database unchanged
without raising. -/
theorem C8_persistence_failure_invisible
    (ragQuery : String → String → Option Nat → Except String QueryOutcome)
    (db : List ChatHistoryRow) (freshUuid : String) (nextId now : Nat)
    (request : ChatRequest) (result : QueryOutcome)
    (hq : ragQuery request.question (request.session_id.getD freshUuid)
      request.document_id = Except.ok result) :
    ∃ resp dbT,
      process_chat_request ragQuery db true freshUuid nextId now request =
        Except.ok (resp, dbT) ∧
      process_chat_request ragQuery db false freshUuid nextId now request =
        Except.ok (resp, db) ∧
      resp.answer = result.answer ∧ resp.sources = result.sources := by
  have h1 := process_chat_request_ok ragQuery db true freshUuid nextId now
    request result hq
  have h2 := process_chat_request_ok ragQuery db false freshUuid nextId now
    request result hq
  rw [if_pos rfl] at h1
  rw [if_neg Bool.false_ne_true] at h2
  exact ⟨_, _, h1, h2, rfl, rfl⟩

theorem C8_persistence_failure_invisible_witness :
    (ragQueryEx "q" (((some "s") : Option String).getD "u") none =
      Except.ok { question := "q", answer := "ans", sources := [],
                  session_id := "s" }) ∧
    (∃ resp dbT,
      process_chat_request ragQueryEx [] true "u" 1 9
        { question := "q", document_id := none, session_id := some "s" } =
        Except.ok (resp, dbT) ∧
      process_chat_request ragQueryEx [] false "u" 1 9
        { question := "q", document_id := none, session_id := some "s" } =
        Except.ok (resp, []) ∧
      resp.answer = "ans" ∧
      resp.sources = []) :=
  ⟨rfl,
    C8_persistence_failure_invisible ragQueryEx [] "u" 1 9
      { question := "q", document_id := none, session_id := some "s" }
      { question := "q", answer := "ans", sources := [], session_id := "s" }
      rfl⟩

/-! ## C9 — empty-history reformulation identity -/

/-- C9: reformulating a question against an empty session history yields
the question itself unchanged and makes no generation-model call. -/
theorem C9_empty_history_reformulation_identity
    (llm : String → List Message → String) (q : String) :
    reformulate llm q [] = (q, false) :=
  rfl

/-! ## C10 — generated session identifier -/

/-- C10: when the request carries no session_id, processing uses the
freshly generated identifier for the query, returns it in the response's
session_id field, and any row the request adds to the chat-history table
is persisted under that same identifier. -/
theorem C10_generated_session_id
    (ragQuery : String → String → Option Nat → Except String QueryOutcome)
    (db : List ChatHistoryRow) (saveOk : Bool) (freshUuid : String)
    (nextId now : Nat) (request : ChatRequest) (result : QueryOutcome)
    (hs : request.session_id = none)
    (hq : ragQuery request.question freshUuid request.document_id =
      Except.ok result) :
    ∃ resp newDb,
      process_chat_request ragQuery db saveOk freshUuid nextId now request =
        Except.ok (resp, newDb) ∧
      resp.session_id = freshUuid ∧
      resp.answer = result.answer ∧
      ∀ r ∈ newDb, r ∈ db ∨ r.session_id = freshUuid := by
  have hq2 : ragQuery request.question (request.session_id.getD freshUuid)
      request.document_id = Except.ok result := by
    rw [hs]
    exact hq
  have h1 := process_chat_request_ok ragQuery db saveOk freshUuid nextId now
    request result hq2
  refine ⟨_, _, h1, ?_, rfl, ?_⟩
  · simp [hs]
  · intro r hr
    cases saveOk with
    | false =>
      rw [if_neg Bool.false_ne_true] at hr
      exact Or.inl hr
    | true =>
      rw [if_pos rfl] at hr
      rcases List.mem_append.mp hr with h | h
      · exact Or.inl h
      · rw [List.mem_singleton] at h
        rw [h, hs]
        exact Or.inr rfl

theorem C10_generated_session_id_witness :
    (ChatRequest.session_id
        { question := "q", document_id := none, session_id := none } = none ∧
      ragQueryEx "q" "u" none =
        Except.ok { question := "q", answer := "ans", sources := [],
                    session_id := "u" }) ∧
    (∃ resp newDb,
      process_chat_request ragQueryEx [] true "u" 1 9
        { question := "q", document_id := none, session_id := none } =
        Except.ok (resp, newDb) ∧
      resp.session_id = "u" ∧
      resp.answer = "ans" ∧
      ∀ r ∈ newDb, r ∈ ([] : List ChatHistoryRow) ∨ r.session_id = "u") :=
  ⟨⟨rfl, rfl⟩,
    C10_generated_session_id ragQueryEx [] true "u" 1 9
      { question := "q", document_id := none, session_id := none }
      { question := "q", answer := "ans", sources := [], session_id := "u" }
      rfl rfl⟩

end DocuChat
